import Mathlib

/-
Verification of the js-ipfs DHT HTTP gateway and bootstrap-reset module.

Sources embedded:
  - packages/ipfs-http-server/src/api/resources/dht.js
    (findPeerResource, findProvsResource, getResource, provideResource,
     putResource, queryResource)
  - the bootstrap reset module (createReset).

JSON-like response bodies and configuration documents are modelled by the
inductive type JVal; JavaScript objects become association lists of
(field name, value) pairs in insertion order.
-/

/-- A JSON-like value: the wire envelopes emitted by the gateway and the
persisted configuration document are values of this type. -/
inductive JVal where
  | str : String → JVal
  | num : Nat → JVal
  | arr : List JVal → JVal
  | obj : List (String × JVal) → JVal

/-- A structured peer address, produced by parsing a multiaddr string
(the external Multiaddr constructor, kept opaque: it wraps the string). -/
structure Multiaddr where
  s : String

/-- Field lookup on a JavaScript-object-as-association-list. -/
def lookupField : List (String × JVal) → String → Option JVal
  | [], _ => none
  | p :: rest, k => if p.1 = k then some p.2 else lookupField rest k

/-- Property assignment on a JavaScript object: `config.Bootstrap = v`
replaces the value of an existing key in place, or appends the key. -/
def setField : List (String × JVal) → String → JVal → List (String × JVal)
  | [], k, v => [(k, v)]
  | p :: rest, k, v => if p.1 = k then (k, v) :: rest else p :: setField rest k v

/-- The state of the external configuration repository: the persisted
configuration document (`repo.config.getAll` reads it, `repo.config.replace`
overwrites it whole). -/
structure RepoState where
  config : List (String × JVal)

/-- Result record of bootstrap reset: `{ Peers: ... }`. -/
structure ResetResult where
  Peers : List Multiaddr

/-- Bootstrap reset (`createReset`): reads the full configuration document,
overwrites its Bootstrap field with the default Bootstrap list from the
built-in configuration template, persists the document, and returns the
default list parsed into Multiaddr values. The default template
(ipfs-core-config, external to these sources) is passed as the
`defaultBootstrap` list of multiaddr strings; `withTimeoutOption` only adds
timeout plumbing and does not change the state transform. -/
def reset (defaultBootstrap : List String) (st : RepoState) :
    RepoState × ResetResult :=
  let config := st.config
  let config2 := setField config "Bootstrap"
    (JVal.arr (defaultBootstrap.map JVal.str))
  (⟨config2⟩, ⟨defaultBootstrap.map (fun ma => ⟨ma⟩)⟩)

/-- An opaque peer identifier; `toStr` is its string form (`id.toString()`). -/
structure PeerId where
  toStr : String

/-- An address of a peer; `toStr` is its string form (`a.toString()`). -/
structure Addr where
  toStr : String

/-- A peer descriptor as returned by the engine (`ipfs.dht.findPeer` /
`ipfs.dht.findProvs`): an id and an address list that may be absent
(the code guards with `res.addrs || []`). -/
structure PeerInfo where
  id : PeerId
  addrs : Option (List Addr)

/-- One event of the engine sequence consumed by the query verb: the code
destructures only `{ id }`. -/
structure QueryEvent where
  id : PeerId

/-- The value returned by `ipfs.dht.get`; `toStr` is `res.toString()`. -/
structure Bytes where
  toStr : String

/-- An engine failure: an optional error code (the code compares
`err.code === "ERR_LOOKUP_FAILED"`) and the string form `err.toString()`. -/
structure EngineError where
  code : Option String
  toStr : String

/-- Transport-level outcome of one request, as shaped by the handlers:
a JSON body, an empty success body, or one of the Boom failure kinds. -/
inductive Outcome where
  | ok : JVal → Outcome
  | okEmpty : Outcome
  | notFound : String → Outcome
  | serverError : String → Outcome
  | badRequest : String → Outcome

/-- The single response body built by the find-peer handler on success:
`{ Responses: [{ ID, Addrs }], Type: 2 }`. -/
def findPeerResponse (res : PeerInfo) : JVal :=
  JVal.obj [
    ("Responses", JVal.arr [JVal.obj [
      ("ID", JVal.str res.id.toStr),
      ("Addrs", JVal.arr ((res.addrs.getD []).map (fun a => JVal.str a.toStr)))]]),
    ("Type", JVal.num 2)]

/-- The find-peer handler after validation, as a function of the engine
result: a lookup failure (`err.code === "ERR_LOOKUP_FAILED"`) becomes
`Boom.notFound(err.toString())`; any other failure becomes
`Boom.boomify(err, { message: err.toString() })`, a server error carrying
the string form; success returns the single Type 2 envelope. -/
def findPeerHandler (engineResult : Except EngineError PeerInfo) : Outcome :=
  match engineResult with
  | .error err =>
      if err.code = some "ERR_LOOKUP_FAILED" then Outcome.notFound err.toStr
      else Outcome.serverError err.toStr
  | .ok res => Outcome.ok (findPeerResponse res)

/-- The response body built by the get handler: `{ Extra, Type: 5 }`. -/
def getResponse (res : Bytes) : JVal :=
  JVal.obj [("Extra", JVal.str res.toStr), ("Type", JVal.num 5)]

/-- The get handler as a function of the engine result: it has no catch
block, so an engine failure propagates whole. -/
def getHandler (engineResult : Except EngineError Bytes) :
    Except EngineError Outcome :=
  engineResult.map (fun res => Outcome.ok (getResponse res))

/-- The provide handler as a function of the engine result: empty success
body, failures propagate whole (no catch block). -/
def provideHandler (engineResult : Except EngineError Unit) :
    Except EngineError Outcome :=
  engineResult.map (fun _ => Outcome.okEmpty)

/-- Modelled from the spec: the Error Translator boundary for handlers
without a local catch block. The spec states that engine failures are
caught at the Operation Dispatcher boundary and passed whole to the Error
Translator, and that any engine failure other than lookup-failed on
find-peer maps to a server error whose message is the string form of the
failure. The code realising this boundary (the HTTP framework glue) is not
among these sources. -/
def boundaryTranslate (r : Except EngineError Outcome) : Outcome :=
  match r with
  | .ok o => o
  | .error e => Outcome.serverError e.toStr

/-- One wire envelope of the find-providers stream, built per event:
`{ Responses: [{ ID, Addrs }], Type: 4 }`. -/
def findProvsEnvelope (e : PeerInfo) : JVal :=
  JVal.obj [
    ("Responses", JVal.arr [JVal.obj [
      ("ID", JVal.str e.id.toStr),
      ("Addrs", JVal.arr ((e.addrs.getD []).map (fun a => JVal.str a.toStr)))]]),
    ("Type", JVal.num 4)]

/-- One wire envelope of the query stream, built per event: `{ ID }` only,
with no Type field. -/
def queryEnvelope (e : QueryEvent) : JVal :=
  JVal.obj [("ID", JVal.str e.id.toStr)]

/-- The find-providers stream body: the handler pipes the engine sequence
through a one-to-one map to Type 4 envelopes. -/
def findProvsStream (events : List PeerInfo) : List JVal :=
  events.map findProvsEnvelope

/-- The query stream body: the handler pipes the engine sequence through a
one-to-one map to `{ ID }` envelopes. -/
def queryStream (events : List QueryEvent) : List JVal :=
  events.map queryEnvelope

/-- Modelled from the spec: the Streaming Encoder pump loop of
streamResponse (its code, utils/stream-response.js, is not among these
sources). Each iteration first observes the cancellation signal; once it
has fired no further event is read from the source and nothing more is
emitted. `cancelAt` is the number of events the signal allows before
firing. Returns (events consumed from the source, envelopes emitted). -/
def pump (encode : α → JVal) : Nat → List α → List α × List JVal
  | 0, _ => ([], [])
  | _ + 1, [] => ([], [])
  | n + 1, e :: rest =>
      let r := pump encode n rest
      (e :: r.1, encode e :: r.2)

/-- Result of a whole streaming response, as the client observes it:
either a clean termination carrying the emitted envelopes, or a failure.
The success/failure framing lives in streamResponse; modelled from the
spec, which treats an empty sequence as a valid, immediately-terminated
response and a source failure as an error termination. -/
inductive StreamResult where
  | success : List JVal → StreamResult
  | failed : EngineError → StreamResult

/-- Modelled from the spec: the query route over a finite source that
yields `events` and then either ends cleanly (`none`) or raises a failure
(`some e`). -/
def queryRoute (source : List QueryEvent × Option EngineError) : StreamResult :=
  match source.2 with
  | some e => StreamResult.failed e
  | none => StreamResult.success (queryStream source.1)

/-- A binary blob, as validated by Joi.binary(). -/
abbrev Bin := List Nat

/-- The put validation schema: `arg` is required and must be an array of
exactly two binary items (`Joi.array().length(2).items(Joi.binary())`). -/
def putValidate (arg : Option (List Bin)) : Bool :=
  match arg with
  | none => false
  | some xs => xs.length == 2

/-- The put handler body on a validated argument pair: calls
`ipfs.dht.put(key, value)` once and returns an empty success body. The
second component records the engine calls made. -/
def putHandlerCall (key value : Bin) : Outcome × List (Bin × Bin) :=
  (Outcome.okEmpty, [(key, value)])

/-- The put route: validation runs before the handler; a failing
validation yields a bad request naming the offending field and the handler
(hence the engine) is never invoked. The final fallback branch is
unreachable, since validation admits only two-element lists. -/
def putRoute (arg : Option (List Bin)) : Outcome × List (Bin × Bin) :=
  if putValidate arg then
    match arg with
    | some (key :: value :: _) => putHandlerCall key value
    | _ => (Outcome.okEmpty, [])
  else (Outcome.badRequest "arg", [])

/-- A raw query-parameter mapping, before validation. -/
abbrev RawQuery := List (String × String)

/-- Lookup of a raw query parameter. -/
def lookupQ : RawQuery → String → Option String
  | [], _ => none
  | p :: rest, k => if p.1 = k then some p.2 else lookupQ rest k

/-- Joi rename with `override: true, ignoreUndefined: true`: when the
source key is present, its value is moved to the destination key,
replacing any value the destination already had; when absent, the mapping
is unchanged. -/
def renameKey (src dst : String) (q : RawQuery) : RawQuery :=
  match lookupQ q src with
  | none => q
  | some v => (dst, v) :: q.filter (fun p => !(p.1 == src || p.1 == dst))

/-- The find-peer validator result for the peerId field: renames `arg` to
`peerId` (override) before reading the field. -/
def findPeerValidatePeerId (q : RawQuery) : Option String :=
  lookupQ (renameKey "arg" "peerId" q) "peerId"

/-- The find-providers validator result for the cid field. -/
def findProvsValidateCid (q : RawQuery) : Option String :=
  lookupQ (renameKey "arg" "cid" q) "cid"

/-- The get validator result for the buffer field (the selected raw value,
which Joi.binary() then decodes). -/
def getValidateBuffer (q : RawQuery) : Option String :=
  lookupQ (renameKey "arg" "buffer" q) "buffer"

/-- The provide validator result for the cid field. -/
def provideValidateCid (q : RawQuery) : Option String :=
  lookupQ (renameKey "arg" "cid" q) "cid"

/-- The query validator result for the peerId field. -/
def queryValidatePeerId (q : RawQuery) : Option String :=
  lookupQ (renameKey "arg" "peerId" q) "peerId"

/-- Number of Type fields carried by an envelope (an envelope with exactly
one type discriminator has count 1). -/
def typeFieldCount (j : JVal) : Nat :=
  match j with
  | JVal.obj fields => (fields.filter (fun p => p.1 == "Type")).length
  | _ => 0

/-- Whether a value is a JSON string. -/
def isStrVal : JVal → Bool
  | JVal.str _ => true
  | _ => false

/-- Whether a value is a peer-response payload item: an object with a
string ID and a list of string addresses. -/
def peerRespOk : JVal → Bool
  | JVal.obj [("ID", JVal.str _), ("Addrs", JVal.arr addrs)] => addrs.all isStrVal
  | _ => false

/-- Formalisation of the data-model invariant on wire envelopes: the
envelope carries exactly one Type discriminator, and its payload shape is
consistent with it — Type 2 and Type 4 carry a Responses list of
peer-response items, Type 5 carries a string Extra field. -/
def envelopeConsistent (j : JVal) : Bool :=
  match j with
  | JVal.obj fields =>
    match fields.filter (fun p => p.1 == "Type") with
    | [(_, JVal.num 2)] =>
        (match fields.filter (fun p => p.1 == "Responses") with
         | [(_, JVal.arr rs)] => rs.all peerRespOk
         | _ => false)
    | [(_, JVal.num 4)] =>
        (match fields.filter (fun p => p.1 == "Responses") with
         | [(_, JVal.arr rs)] => rs.all peerRespOk
         | _ => false)
    | [(_, JVal.num 5)] =>
        (match fields.filter (fun p => p.1 == "Extra") with
         | [(_, JVal.str _)] => true
         | _ => false)
    | _ => false
  | _ => false

theorem lookupField_setField_self (d : List (String × JVal)) (k : String)
    (v : JVal) : lookupField (setField d k v) k = some v := by
  induction d with
  | nil => simp [setField, lookupField]
  | cons p rest ih =>
      by_cases h : p.1 = k
      · simp [setField, lookupField, h]
      · simp [setField, lookupField, h, ih]

theorem lookupField_setField_other (d : List (String × JVal)) (k k2 : String)
    (v : JVal) (hne : k2 ≠ k) :
    lookupField (setField d k v) k2 = lookupField d k2 := by
  have h2 : ¬ (k = k2) := fun hc => hne hc.symm
  induction d with
  | nil => simp [setField, lookupField, h2]
  | cons p rest ih =>
      by_cases h : p.1 = k
      · have hp2 : ¬ (p.1 = k2) := by rw [h]; exact h2
        simp [setField, lookupField, h, h2, hp2]
      · simp [setField, lookupField, h, ih]

theorem pump_eq (encode : α → JVal) (n : Nat) (events : List α) :
    pump encode n events = (events.take n, (events.take n).map encode) := by
  induction n generalizing events with
  | zero => simp [pump]
  | succ m ih =>
      cases events with
      | nil => simp [pump]
      | cons e rest => simp [pump, ih]

theorem lookupQ_renameKey_hit (q : RawQuery) (src dst a : String)
    (h : lookupQ q src = some a) :
    lookupQ (renameKey src dst q) dst = some a := by
  simp [renameKey, h, lookupQ]

theorem all_isStrVal_map_str (l : List Addr) :
    ((l.map (fun a => JVal.str a.toStr)).all isStrVal) = true := by
  induction l with
  | nil => rfl
  | cons a rest ih => simp [isStrVal, ih]

/-- Claim C1: for every configuration document read from the repository,
bootstrap reset persists a document equal to the input with only the
Bootstrap field replaced by the built-in default list (every other field
unchanged), and returns Peers equal to the default list with each entry
parsed into a structured peer address. -/
theorem bootstrapReset_frame (defaultBootstrap : List String) (st : RepoState) :
    (∀ k, k ≠ "Bootstrap" →
      lookupField (reset defaultBootstrap st).1.config k = lookupField st.config k) ∧
    lookupField (reset defaultBootstrap st).1.config "Bootstrap" =
      some (JVal.arr (defaultBootstrap.map JVal.str)) ∧
    (reset defaultBootstrap st).2.Peers =
      defaultBootstrap.map (fun ma => Multiaddr.mk ma) :=
  ⟨fun k hk => lookupField_setField_other st.config "Bootstrap" k _ hk,
   lookupField_setField_self st.config "Bootstrap" _,
   rfl⟩

/-- Witness for C1 at a concrete document with extra fields A and B and an
old bootstrap list. -/
theorem bootstrapReset_frame_witness :
    lookupField (reset ["ma1"]
      ⟨[("A", JVal.num 1), ("Bootstrap", JVal.arr [JVal.str "old"]),
        ("B", JVal.num 2)]⟩).1.config "A" = some (JVal.num 1) ∧
    lookupField (reset ["ma1"]
      ⟨[("A", JVal.num 1), ("Bootstrap", JVal.arr [JVal.str "old"]),
        ("B", JVal.num 2)]⟩).1.config "B" = some (JVal.num 2) ∧
    lookupField (reset ["ma1"]
      ⟨[("A", JVal.num 1), ("Bootstrap", JVal.arr [JVal.str "old"]),
        ("B", JVal.num 2)]⟩).1.config "Bootstrap" =
      some (JVal.arr [JVal.str "ma1"]) ∧
    (reset ["ma1"]
      ⟨[("A", JVal.num 1), ("Bootstrap", JVal.arr [JVal.str "old"]),
        ("B", JVal.num 2)]⟩).2.Peers = [Multiaddr.mk "ma1"] :=
  ⟨(bootstrapReset_frame ["ma1"] _).1 "A" (by decide),
   (bootstrapReset_frame ["ma1"] _).1 "B" (by decide),
   (bootstrapReset_frame ["ma1"] _).2.1,
   (bootstrapReset_frame ["ma1"] _).2.2⟩

/-- Claim C9: the Peers list returned by bootstrap reset is derived solely
from the built-in default configuration template: any two repository
states yield equal Peers lists, and the returned list equals a fresh
evaluation of the template Bootstrap list parsed into peer addresses,
independent of the persisted document. -/
theorem reset_peers_config_independent (defaultBootstrap : List String)
    (st1 st2 : RepoState) :
    (reset defaultBootstrap st1).2.Peers = (reset defaultBootstrap st2).2.Peers ∧
    (reset defaultBootstrap st1).2.Peers =
      defaultBootstrap.map (fun ma => Multiaddr.mk ma) :=
  ⟨rfl, rfl⟩

/-- Claim C2: an engine failure whose code is ERR_LOOKUP_FAILED on
find-peer maps to a not-found outcome; every other engine failure, on any
verb, maps to a server-error outcome whose message is the string form of
the original failure (for verbs without a local catch block, via the
spec-modelled Error Translator boundary). -/
theorem dht_error_mapping (err : EngineError) :
    (err.code = some "ERR_LOOKUP_FAILED" →
      findPeerHandler (Except.error err) = Outcome.notFound err.toStr) ∧
    (err.code ≠ some "ERR_LOOKUP_FAILED" →
      findPeerHandler (Except.error err) = Outcome.serverError err.toStr) ∧
    boundaryTranslate (getHandler (Except.error err)) =
      Outcome.serverError err.toStr ∧
    boundaryTranslate (provideHandler (Except.error err)) =
      Outcome.serverError err.toStr := by
  refine ⟨fun h => ?_, fun h => ?_, rfl, rfl⟩
  · simp [findPeerHandler, h]
  · simp [findPeerHandler, h]

/-- Witness for C2: a lookup failure maps to not-found, a generic failure
maps to a server error carrying the original string form, on find-peer and
on get alike. -/
theorem dht_error_mapping_witness :
    findPeerHandler (Except.error ⟨some "ERR_LOOKUP_FAILED", "Error: lookup failed"⟩) =
      Outcome.notFound "Error: lookup failed" ∧
    findPeerHandler (Except.error ⟨none, "Error: boom"⟩) =
      Outcome.serverError "Error: boom" ∧
    boundaryTranslate (getHandler (Except.error ⟨none, "Error: boom"⟩)) =
      Outcome.serverError "Error: boom" :=
  ⟨(dht_error_mapping ⟨some "ERR_LOOKUP_FAILED", "Error: lookup failed"⟩).1 rfl,
   (dht_error_mapping ⟨none, "Error: boom"⟩).2.1 (by simp),
   (dht_error_mapping ⟨none, "Error: boom"⟩).2.2.1⟩

/-- Claim C4: for every valid find-peer request where the engine resolves
successfully, the response body is exactly one envelope of Type 2 whose ID
is the string form of the descriptor id and whose address list is the
string forms of the descriptor addresses, the empty list when the
descriptor carries none. -/
theorem findPeer_success_envelope (res : PeerInfo) :
    findPeerHandler (Except.ok res) = Outcome.ok (JVal.obj [
      ("Responses", JVal.arr [JVal.obj [
        ("ID", JVal.str res.id.toStr),
        ("Addrs", JVal.arr ((res.addrs.getD []).map (fun a => JVal.str a.toStr)))]]),
      ("Type", JVal.num 2)]) ∧
    (res.addrs = none →
      findPeerHandler (Except.ok res) = Outcome.ok (JVal.obj [
        ("Responses", JVal.arr [JVal.obj [
          ("ID", JVal.str res.id.toStr),
          ("Addrs", JVal.arr [])]]),
        ("Type", JVal.num 2)])) := by
  refine ⟨rfl, fun h => ?_⟩
  simp [findPeerHandler, findPeerResponse, h]

/-- Witness for C4 at a descriptor with no addresses. -/
theorem findPeer_success_envelope_witness :
    findPeerHandler (Except.ok ⟨⟨"QmTarget"⟩, none⟩) = Outcome.ok (JVal.obj [
      ("Responses", JVal.arr [JVal.obj [
        ("ID", JVal.str "QmTarget"), ("Addrs", JVal.arr [])]]),
      ("Type", JVal.num 2)]) :=
  (findPeer_success_envelope ⟨⟨"QmTarget"⟩, none⟩).2 rfl

/-- Claim C3: for every find-providers request and every finite prefix of
the engine event sequence consumed before cancellation or completion, the
emitted envelopes are one per consumed event, in production order, each of
Type 4 carrying the string form of the event peer id and its address
list. -/
theorem findProvs_stream_mapping (cancelAt : Nat) (events : List PeerInfo) :
    ((pump findProvsEnvelope cancelAt events).2).length =
      ((pump findProvsEnvelope cancelAt events).1).length ∧
    (pump findProvsEnvelope cancelAt events).2 =
      ((pump findProvsEnvelope cancelAt events).1).map (fun e => JVal.obj [
        ("Responses", JVal.arr [JVal.obj [
          ("ID", JVal.str e.id.toStr),
          ("Addrs", JVal.arr ((e.addrs.getD []).map (fun a => JVal.str a.toStr)))]]),
        ("Type", JVal.num 4)]) := by
  rw [pump_eq]
  exact ⟨by simp, rfl⟩

/-- Claim C7: for every streaming call (find-providers and query), when the
cancellation signal fires after `cancelAt` of the events have been
produced, the encoder reads no event of the source beyond the first
`cancelAt` and emits at most `cancelAt` envelopes. -/
theorem stream_cancellation_bound (cancelAt : Nat)
    (pEvents : List PeerInfo) (qEvents : List QueryEvent) :
    (pump findProvsEnvelope cancelAt pEvents).1 = pEvents.take cancelAt ∧
    ((pump findProvsEnvelope cancelAt pEvents).2).length ≤ cancelAt ∧
    (pump queryEnvelope cancelAt qEvents).1 = qEvents.take cancelAt ∧
    ((pump queryEnvelope cancelAt qEvents).2).length ≤ cancelAt := by
  refine ⟨?_, ?_, ?_, ?_⟩ <;> simp [pump_eq]

/-- Claim C8: a query request whose engine sequence is empty yields zero
envelopes and the stream terminates cleanly as a success, not an error. -/
theorem query_empty_success :
    queryRoute ([], none) = StreamResult.success [] ∧
    queryStream [] = [] ∧
    (∀ cancelAt, (pump queryEnvelope cancelAt []).2 = []) :=
  ⟨rfl, rfl, fun cancelAt => by simp [pump_eq]⟩

/-- Claim C6: a put request whose positional argument list does not
consist of exactly two binary items fails validation with a bad request
before the put capability of the engine is invoked; the engine call list
is empty. The missing-argument case fails the same way. -/
theorem put_arity_validation (xs : List Bin) (h : xs.length ≠ 2) :
    putRoute (some xs) = (Outcome.badRequest "arg", []) ∧
    putRoute none = (Outcome.badRequest "arg", []) := by
  constructor
  · simp [putRoute, putValidate, h]
  · rfl

/-- Witness for C6 at a one-element argument list. -/
theorem put_arity_validation_witness :
    putRoute (some [[0]]) = (Outcome.badRequest "arg", []) :=
  (put_arity_validation [[0]] (by decide)).1

/-- Claim C10: when a request supplies both the generic positional
parameter arg and the corresponding named parameter, the validated value
of the named field is the arg value: the positional alias overrides the
named field for find-peer and query (peerId), find-providers and provide
(cid), and get (buffer). -/
theorem arg_alias_overrides (q : RawQuery) (a p1 p2 p3 : String)
    (ha : lookupQ q "arg" = some a) :
    (lookupQ q "peerId" = some p1 →
      findPeerValidatePeerId q = some a ∧ queryValidatePeerId q = some a) ∧
    (lookupQ q "cid" = some p2 →
      findProvsValidateCid q = some a ∧ provideValidateCid q = some a) ∧
    (lookupQ q "buffer" = some p3 → getValidateBuffer q = some a) := by
  refine ⟨fun _ => ⟨?_, ?_⟩, fun _ => ⟨?_, ?_⟩, fun _ => ?_⟩
  · exact lookupQ_renameKey_hit q "arg" "peerId" a ha
  · exact lookupQ_renameKey_hit q "arg" "peerId" a ha
  · exact lookupQ_renameKey_hit q "arg" "cid" a ha
  · exact lookupQ_renameKey_hit q "arg" "cid" a ha
  · exact lookupQ_renameKey_hit q "arg" "buffer" a ha

/-- Witness for C10 at a query supplying arg together with explicit
peerId, cid and buffer fields: the arg value wins everywhere. -/
theorem arg_alias_overrides_witness :
    findPeerValidatePeerId
      [("arg", "QmA"), ("peerId", "QmB"), ("cid", "QmC"), ("buffer", "QmD")] =
      some "QmA" ∧
    queryValidatePeerId
      [("arg", "QmA"), ("peerId", "QmB"), ("cid", "QmC"), ("buffer", "QmD")] =
      some "QmA" ∧
    findProvsValidateCid
      [("arg", "QmA"), ("peerId", "QmB"), ("cid", "QmC"), ("buffer", "QmD")] =
      some "QmA" ∧
    provideValidateCid
      [("arg", "QmA"), ("peerId", "QmB"), ("cid", "QmC"), ("buffer", "QmD")] =
      some "QmA" ∧
    getValidateBuffer
      [("arg", "QmA"), ("peerId", "QmB"), ("cid", "QmC"), ("buffer", "QmD")] =
      some "QmA" :=
  ⟨((arg_alias_overrides _ "QmA" "QmB" "QmC" "QmD" (by decide)).1 (by decide)).1,
   ((arg_alias_overrides _ "QmA" "QmB" "QmC" "QmD" (by decide)).1 (by decide)).2,
   ((arg_alias_overrides _ "QmA" "QmB" "QmC" "QmD" (by decide)).2.1 (by decide)).1,
   ((arg_alias_overrides _ "QmA" "QmB" "QmC" "QmD" (by decide)).2.1 (by decide)).2,
   (arg_alias_overrides _ "QmA" "QmB" "QmC" "QmD" (by decide)).2.2 (by decide)⟩

/-- Claim C5 counterexample: a query envelope carries no type
discriminator at all, so it is false that every wire envelope emitted by
any operation carries exactly one type discriminator. -/
theorem query_envelope_no_discriminator :
    queryStream [⟨⟨"QmPeerA"⟩⟩] = [JVal.obj [("ID", JVal.str "QmPeerA")]] ∧
    typeFieldCount (JVal.obj [("ID", JVal.str "QmPeerA")]) = 0 ∧
    typeFieldCount (JVal.obj [("ID", JVal.str "QmPeerA")]) ≠ 1 :=
  ⟨rfl, rfl, by decide⟩

/-- Claim C5 (amended): every wire envelope emitted by find-peer,
find-providers and get carries exactly one type discriminator (2, 4 and 5
respectively) with a payload shape consistent with it, while every query
envelope carries no type discriminator and consists of the peer id
alone. -/
theorem wire_envelope_discriminators (res e : PeerInfo) (b : Bytes)
    (qe : QueryEvent) :
    typeFieldCount (findPeerResponse res) = 1 ∧
    envelopeConsistent (findPeerResponse res) = true ∧
    typeFieldCount (findProvsEnvelope e) = 1 ∧
    envelopeConsistent (findProvsEnvelope e) = true ∧
    typeFieldCount (getResponse b) = 1 ∧
    envelopeConsistent (getResponse b) = true ∧
    typeFieldCount (queryEnvelope qe) = 0 ∧
    queryEnvelope qe = JVal.obj [("ID", JVal.str qe.id.toStr)] := by
  refine ⟨rfl, ?_, rfl, ?_, rfl, rfl, rfl, rfl⟩
  · simp [envelopeConsistent, findPeerResponse, peerRespOk, all_isStrVal_map_str]
  · simp [envelopeConsistent, findProvsEnvelope, peerRespOk, all_isStrVal_map_str]
